import Mathlib

/-!
Shallow embedding of the review-scraping service in `src/index.py`
(repository tiwo19/WebScrapper).

The service is a single AWS-Lambda-style handler.  Pure computation
(value cleaning, status computation, payload construction, control
flow) is embedded directly; every outbound network interaction
(Supabase REST calls, the Apify job engine, the asynchronous Lambda
self-invocation) is modelled by

  * an `Effect` emitted into an ordered trace, recording that the call
    was attempted and with what payload, and
  * an environment value (`ItemEnv`, `ScrapeEnv`, `HandlerEnv`)
    choosing the outcome the external world hands back, including the
    strings the Python runtime would render for exceptions raised by
    those calls.

Python data that flows through the handler is JSON-shaped; it is
embedded as `PyVal`.  Mappings are association lists with string keys
(Python dict keys in every record this service touches are strings).
-/

/-- A Python value as handled by `index.py`: the JSON primitives,
lists, string-keyed dicts, and `obj rep` for any other Python object,
carrying the string `str(value)` would render it to.  Floats are
carried as rationals; the service never computes with them, it only
passes them through, tests them for truthiness and serializes them. -/
inductive PyVal : Type where
  | none : PyVal
  | str (s : String) : PyVal
  | int (n : Int) : PyVal
  | float (q : ℚ) : PyVal
  | bool (b : Bool) : PyVal
  | list (xs : List PyVal) : PyVal
  | dict (kvs : List (String × PyVal)) : PyVal
  | obj (rep : String) : PyVal

/-- Python truthiness (`if value:`). -/
def PyVal.truthy : PyVal → Bool
  | .none => false
  | .str s => s ≠ ""
  | .int n => n ≠ 0
  | .float q => q ≠ 0
  | .bool b => b
  | .list xs => !xs.isEmpty
  | .dict kvs => !kvs.isEmpty
  | .obj _ => true

/-- Python `d.get(k)` on a dict: `None` when the key is absent. -/
def pyGet (kvs : List (String × PyVal)) (k : String) : PyVal :=
  ((kvs.find? (fun kv => kv.1 == k)).map Prod.snd).getD .none

/-- Python `d.get(k, default)`. -/
def pyGetD (kvs : List (String × PyVal)) (k : String) (d : PyVal) : PyVal :=
  ((kvs.find? (fun kv => kv.1 == k)).map Prod.snd).getD d

/-- Key lookup that distinguishes absence (for `d[k]` / `KeyError`). -/
def dictFind (kvs : List (String × PyVal)) (k : String) : Option PyVal :=
  (kvs.find? (fun kv => kv.1 == k)).map Prod.snd

/-- The `json.dumps` serialization probe: a value serializes exactly
when no `obj` occurs inside it (all other embedded values are
JSON-representable; dict keys are strings by construction). -/
def PyVal.serializable : PyVal → Bool
  | .obj _ => false
  | .list [] => true
  | .list (x :: xs) => x.serializable && (PyVal.list xs).serializable
  | .dict [] => true
  | .dict ((_k, v) :: kvs) => v.serializable && (PyVal.dict kvs).serializable
  | .none => true
  | .str _ => true
  | .int _ => true
  | .float _ => true
  | .bool _ => true
decreasing_by
  all_goals simp_wf
  all_goals omega

/-- Rendering of a float for `str`/`repr`.  The exact digit string
Python would print is below the granularity of every claim; only the
fact that a string is produced matters. -/
def floatRepr (q : ℚ) : String :=
  toString q.num ++ "e" ++ toString q.den

mutual

/-- Python `repr(value)`.  String escaping subtleties of Python string
repr are below claim granularity; the structure (quotes, brackets,
comma separation, `None`/`True`/`False`) is reproduced. -/
def pyRepr : PyVal → String
  | .none => "None"
  | .str s => "\x27" ++ s ++ "\x27"
  | .int n => toString n
  | .float q => floatRepr q
  | .bool b => if b then "True" else "False"
  | .list xs => "[" ++ pyReprList xs ++ "]"
  | .dict kvs => "\x7b" ++ pyReprDict kvs ++ "\x7d"
  | .obj rep => rep

/-- Comma-separated reprs of the elements of a Python list. -/
def pyReprList : List PyVal → String
  | [] => ""
  | [x] => pyRepr x
  | x :: xs => pyRepr x ++ ", " ++ pyReprList xs

/-- Comma-separated `key: value` reprs of the entries of a Python dict. -/
def pyReprDict : List (String × PyVal) → String
  | [] => ""
  | [kv] => "\x27" ++ kv.1 ++ "\x27: " ++ pyRepr kv.2
  | kv :: kvs => "\x27" ++ kv.1 ++ "\x27: " ++ pyRepr kv.2 ++ ", " ++ pyReprDict kvs

end

/-- Python `str(value)`: a string is itself, everything else is its repr. -/
def pyStr : PyVal → String
  | .str s => s
  | v => pyRepr v

/-- One field transformation of `clean_review_data` (src/index.py lines
65-79): `None` and primitives pass through, lists and dicts pass
through exactly when the `json.dumps` probe succeeds and are otherwise
replaced by `str(value)`, and any other object is stringified. -/
def cleanValue : PyVal → PyVal
  | .none => .none
  | .str s => .str s
  | .int n => .int n
  | .float q => .float q
  | .bool b => .bool b
  | .list xs =>
      if (PyVal.list xs).serializable then .list xs
      else .str (pyStr (.list xs))
  | .dict kvs =>
      if (PyVal.dict kvs).serializable then .dict kvs
      else .str (pyStr (.dict kvs))
  | .obj rep => .str (pyStr (.obj rep))

/-- Function `clean_review_data` (src/index.py lines 62-80): clean a review
record field by field so that the result is JSON serializable. -/
def clean_review_data (item : List (String × PyVal)) : List (String × PyVal) :=
  item.map (fun kv => (kv.1, cleanValue kv.2))

/-- The primitive (pass-through) Python types of `clean_review_data`:
`None`, `str`, `int`, `float`, `bool`. -/
def PyVal.isPrimitive : PyVal → Bool
  | .none => true
  | .str _ => true
  | .int _ => true
  | .float _ => true
  | .bool _ => true
  | _ => false

/-- The nested structure types probed with `json.dumps`: `list`, `dict`. -/
def PyVal.isNested : PyVal → Bool
  | .list _ => true
  | .dict _ => true
  | _ => false

/-- Python `==` against a string literal (used for
`item[\x27error\x27] == \x27no_reviews\x27`): only a `str` can equal a
string. -/
def pyEqStr (v : PyVal) (t : String) : Bool :=
  match v with
  | .str s => s == t
  | _ => false

/-- Elements of a Python list when they are all strings (the successful
case of `str.join` over a list). -/
def strElems : List PyVal → Option (List String)
  | [] => some []
  | .str s :: rest => (strElems rest).map (fun l => s :: l)
  | _ => Option.none

/-- Python `",".join(value)` (src/index.py line 423): succeeds on a
string (joining its characters), a list of strings, or a dict (joining
its string keys); raises `TypeError` otherwise. -/
def pyJoinComma : PyVal → Option String
  | .str s => some (String.intercalate "," (s.toList.map (fun c => String.singleton c)))
  | .list xs => (strElems xs).map (String.intercalate ",")
  | .dict kvs => some (String.intercalate "," (kvs.map Prod.fst))
  | _ => Option.none

/-- Python `"; ".join(values)` over the accumulated error summaries
(src/index.py line 548): raises `TypeError` unless all are strings. -/
def joinSemicolon (l : List PyVal) : Option String :=
  (strElems l).map (String.intercalate "; ")

/-- Python `int(value)` (src/index.py line 562): `None` when the
conversion raises.  Truncation toward zero for floats; underscores in
int literals are below claim granularity. -/
def pyInt : PyVal → Option Int
  | .int n => some n
  | .bool b => some (if b then 1 else 0)
  | .float q => some (if 0 ≤ q then ⌊q⌋ else ⌈q⌉)
  | .str s =>
      let t := s.trim
      if t == "" then Option.none
      else if t.front == '-' then ((t.drop 1).toNat?).map (fun n => -(n : Int))
      else if t.front == '+' then ((t.drop 1).toNat?).map (fun n => (n : Int))
      else (t.toNat?).map (fun n => (n : Int))
  | _ => Option.none

/-- The exception type name `int(value)` raises on failure
(`ValueError` for strings, `TypeError` for non-numbers). -/
def pyIntErrTy : PyVal → String
  | .str _ => "ValueError"
  | _ => "TypeError"

/-- Python `value[0]` (src/index.py lines 141, 656): the head of a
list, the first character of a string, `None` when indexing raises. -/
def pyIndex0 : PyVal → Option PyVal
  | .str s => if s.isEmpty then Option.none else some (.str (String.singleton s.front))
  | .list (x :: _) => some x
  | _ => Option.none

/-- The per-item exception rendering of src/index.py lines 518-524:
`str(e)` equal to "0" becomes "Unknown error", and an empty or unknown
message falls back to the traceback. -/
def detailedError (ty msg tb : String) : String :=
  let m := if msg == "0" then "Unknown error" else msg
  if m == "Unknown error" || m == "" then "Exception in item processing: " ++ tb
  else ty ++ ": " ++ m

/-- The `ProcessedError` dataclass (src/index.py lines 18-24).  `type`
and `description` hold whatever Python value the code passes
(`item[\x27error\x27]` need not be a string), so they are `PyVal`. -/
structure ProcessedError where
  type : PyVal
  description : PyVal
  place_id : PyVal := .none
  review_id : PyVal := .none
  business_info : Option (List (String × PyVal)) := Option.none

/-- The `ProcessedBusinessInfo` dataclass (src/index.py lines 26-48),
as populated at line 419: every field except `categories` receives a
raw `item.get(...)` value; `categories` receives the result of
`",".join(...)`, always a string. -/
structure ProcessedBusinessInfo where
  place_id : PyVal := .none
  title : PyVal := .none
  category_name : PyVal := .none
  categories : String := ""
  address : PyVal := .none
  neighborhood : PyVal := .none
  street : PyVal := .none
  city : PyVal := .none
  postal_code : PyVal := .none
  state : PyVal := .none
  country_code : PyVal := .none
  location : PyVal := .none
  total_score : PyVal := .none
  reviews_count : PyVal := .none
  price : PyVal := .none
  permanently_closed : PyVal := .none
  temporarily_closed : PyVal := .none
  image_url : PyVal := .none
  url : PyVal := .none
  cid : PyVal := .none
  fid : PyVal := .none

/-- Constant `CORS_HEADERS` (src/index.py lines 50-55). -/
def CORS_HEADERS : List (String × String) :=
  [("Access-Control-Allow-Origin", "*"),
   ("Access-Control-Allow-Headers", "authorization, x-client-info, apikey, content-type"),
   ("Access-Control-Allow-Methods", "GET, POST, PUT, DELETE, OPTIONS"),
   ("Content-Type", "application/json")]

/-- The `processed_results` payload assembled by
`handle_synchronous_scraping` (src/index.py lines 361-367)
and returned through `safe_json_dumps`. -/
structure ProcessedResults where
  totalItems : Nat
  successfulInserts : Nat
  errors : List ProcessedError
  businessInfo : Option ProcessedBusinessInfo
  scrapingAttemptId : String

/-- Body of an HTTP response, before `json.dumps` rendering: either a
plain dict of fields, the `processed_results` payload, or a raw store
row (status check). -/
inductive RespBody where
  | msg (fields : List (String × PyVal)) : RespBody
  | results (r : ProcessedResults) : RespBody
  | raw (v : PyVal) : RespBody

/-- An HTTP-style response dict.  `headers` is `Option` because two
return sites in `handle_async_scraping` build responses without a
`headers` key. -/
structure Response where
  statusCode : Nat
  headers : Option (List (String × String)) := Option.none
  body : RespBody

/-- One outbound call attempted by the handler, recorded with its
payload.  The order of effects in a trace is the order of the calls. -/
inductive Effect where
  | patchMetadata (attemptId : String) (payload : List (String × PyVal)) : Effect
  | callActor (runInput : List (String × PyVal)) : Effect
  | fetchDataset : Effect
  | postReview (payload : List (String × PyVal)) : Effect
  | getReview (reviewId : PyVal) : Effect
  | patchReview (reviewId : PyVal) (payload : List (String × PyVal)) : Effect
  | postBusiness (payload : List (String × PyVal)) : Effect
  | invokeLambda (payload : List (String × PyVal)) : Effect
  | getMetadata (attemptId : String) : Effect

/-- A raw scraped record from the job engine dataset: a Python dict. -/
abbrev Item := List (String × PyVal)

/-- Outcome of the `requests.post` + `raise_for_status` +
`response.json()` sequence for one review insert (src/index.py lines
455-467), chosen by the store. -/
inductive PostOutcome where
  | reqError (msg : String) (respText : Option String) : PostOutcome
  | jsonError (text : String) : PostOutcome
  | ok (result : PyVal) : PostOutcome

/-- Outcome of the best-effort back-annotation block (src/index.py
lines 483-499): either the block completes (the review patch done,
skipped, or its `RequestException` logged), or a non-request exception
(e.g. `JSONDecodeError` from `check_review.json()`) escapes it,
carrying the strings the runtime renders for it.  `patched` records
whether the `requests.patch` call was reached. -/
inductive AnnotateOutcome where
  | silent (patched : Bool) : AnnotateOutcome
  | raised (ty : String) (msg : String) (tb : String) : AnnotateOutcome

/-- External outcomes for processing one raw record.  `joinMsg` and
`joinTb` are the strings the runtime renders if `",".join` raises
while building the business info. -/
structure ItemEnv where
  post : PostOutcome := .ok (.list [])
  annotate : AnnotateOutcome := .silent false
  joinMsg : String := ""
  joinTb : String := ""

/-- The mutable state of the result-processing loop (src/index.py
lines 361-370 initialise it, lines 400-534 update it). -/
structure LoopState where
  business_place_id : PyVal
  successfulInserts : Nat := 0
  total_reviews_scraped : Nat := 0
  errors : List ProcessedError := []
  scraping_errors : List PyVal := []
  businessInfo : Option ProcessedBusinessInfo := Option.none

/-- Append one `ProcessedError` and its summary (the pattern at
src/index.py lines 442-443, 514-515, 533-534). -/
def addError (s : LoopState) (e : ProcessedError) (summary : PyVal) : LoopState :=
  { s with errors := s.errors ++ [e],
           scraping_errors := s.scraping_errors ++ [summary] }

/-- The per-item fallback for the business place id (src/index.py
lines 403-404). -/
def bpidUpdate (s : LoopState) (item : Item) : LoopState :=
  if !s.business_place_id.truthy && (pyGet item "placeId").truthy
  then { s with business_place_id := pyGet item "placeId" }
  else s

/-- The four-field business snapshot stored on a `no_reviews`
`ProcessedError` (src/index.py lines 413-418). -/
def errBusinessDict (item : Item) : List (String × PyVal) :=
  [("title", pyGet item "title"),
   ("address", pyGet item "address"),
   ("totalScore", pyGet item "totalScore"),
   ("reviewsCount", pyGet item "reviewsCount")]

/-- The `ProcessedBusinessInfo` built from a `no_reviews` record
(src/index.py lines 419-441); `cats` is the result of the
`",".join` over the categories field. -/
def businessInfoOf (item : Item) (cats : String) : ProcessedBusinessInfo :=
  { place_id := pyGet item "placeId"
    title := pyGet item "title"
    category_name := pyGet item "categoryName"
    categories := cats
    address := pyGet item "address"
    neighborhood := pyGet item "neighborhood"
    street := pyGet item "street"
    city := pyGet item "city"
    postal_code := pyGet item "postalCode"
    state := pyGet item "state"
    country_code := pyGet item "countryCode"
    location := pyGet item "location"
    total_score := pyGet item "totalScore"
    reviews_count := pyGet item "reviewsCount"
    price := pyGet item "price"
    permanently_closed := pyGet item "permanentlyClosed"
    temporarily_closed := pyGet item "temporarilyClosed"
    image_url := pyGet item "imageUrl"
    url := pyGet item "url"
    cid := pyGet item "cid"
    fid := pyGet item "fid" }

/-- The `processing_error` built by the per-item exception handler
(src/index.py lines 517-534). -/
def crashError (item : Item) (ty msg tb : String) : ProcessedError :=
  { type := .str "processing_error",
    description := .str (detailedError ty msg tb),
    review_id := pyGet item "reviewId" }

/-- Apply the per-item exception handler to the loop state. -/
def crashStep (s : LoopState) (item : Item) (ty msg tb : String) : LoopState :=
  addError s (crashError item ty msg tb) (.str (detailedError ty msg tb))

/-- Extraction of the inserted review id from the store response
(src/index.py lines 473-479). -/
def reviewIdOf (result : PyVal) : Option PyVal :=
  match result with
  | .list (r0 :: _) =>
      match r0 with
      | .dict kvs => if (pyGet kvs "id").truthy then some (pyGet kvs "id") else Option.none
      | _ => Option.none
  | .dict kvs => if (pyGet kvs "id").truthy then some (pyGet kvs "id") else Option.none
  | _ => Option.none

/-- The optional `" Response: ..."` suffix of a database error message
(src/index.py lines 503-507). -/
def respTextSuffix : Option String → String
  | some t => " Response: " ++ t
  | Option.none => ""

/-- Process one raw record (the body of the `for item in items:` loop,
src/index.py lines 400-534).  Returns the updated loop state and the
outbound calls attempted for this record. -/
def processItem (attemptId : String) (s : LoopState) (ie : Item × ItemEnv) :
    LoopState × List Effect :=
  let item := ie.1
  let env := ie.2
  let s := bpidUpdate s item
  let tag := pyGet item "error"
  if tag.truthy then
    let desc := pyGetD item "errorDescription" tag
    if pyEqStr tag "no_reviews" then
      match pyJoinComma (pyGetD item "categories" (.list [])) with
      | some cats =>
          let e : ProcessedError :=
            { type := tag, description := desc, place_id := pyGet item "placeId",
              business_info := some (errBusinessDict item) }
          ({ s with businessInfo := some (businessInfoOf item cats),
                    errors := s.errors ++ [e],
                    scraping_errors := s.scraping_errors ++ [desc] }, [])
      | Option.none =>
          -- `",".join(item.get("categories", []))` raised TypeError at line
          -- 423, before `processed_results["businessInfo"]` was assigned and
          -- before `error_info` was appended; the per-item handler fires.
          (crashStep s item "TypeError" env.joinMsg env.joinTb, [])
    else
      let e : ProcessedError :=
        { type := tag, description := desc, place_id := pyGet item "placeId" }
      (addError s e desc, [])
  else
    let cleaned := clean_review_data item
    let postPayload := [("review_data", PyVal.dict cleaned)]
    match env.post with
    | .reqError msg respText =>
        let emsg := "Database error: " ++ msg ++ respTextSuffix respText
        let e : ProcessedError :=
          { type := .str "database_error", description := .str emsg,
            review_id := pyGet item "reviewId" }
        (addError s e (.str emsg), [.postReview postPayload])
    | .jsonError text =>
        -- line 467 raises a plain Exception, caught by the per-item handler
        (crashStep s item "Exception"
          ("Invalid JSON response from database: " ++ text.take 500) "",
         [.postReview postPayload])
    | .ok result =>
        if result.truthy then
          let s := { s with successfulInserts := s.successfulInserts + 1,
                            total_reviews_scraped := s.total_reviews_scraped + 1 }
          match reviewIdOf result with
          | some rid =>
              match env.annotate with
              | .silent patched =>
                  (s, [.postReview postPayload, .getReview rid] ++
                      (if patched
                       then [.patchReview rid [("scraping_attempt", .str attemptId)]]
                       else []))
              | .raised ty msg tb =>
                  (crashStep s item ty msg tb,
                   [.postReview postPayload, .getReview rid])
          | Option.none => (s, [.postReview postPayload])
        else
          -- a 2xx insert whose parsed JSON result is falsy: no success is
          -- counted and no error is recorded (lines 469-470 guard both)
          (s, [.postReview postPayload])

/-- The whole result-processing loop, in input order. -/
def runLoop (attemptId : String) (s : LoopState) :
    List (Item × ItemEnv) → LoopState × List Effect
  | [] => (s, [])
  | ie :: rest =>
      let r1 := processItem attemptId s ie
      let r2 := runLoop attemptId r1.1 rest
      (r2.1, r1.2 ++ r2.2)

/-- The final status expression (src/index.py line 537). -/
def final_status (total_reviews_scraped : Nat) (scraping_errors : List PyVal) : String :=
  if scraping_errors.isEmpty then "completed"
  else if total_reviews_scraped == 0 then "failed"
  else "completed_with_errors"

/-- The `error_message` value of the final metadata update
(src/index.py line 548): `None` when no errors, otherwise the
semicolon join of the first five summaries; `Option.none` when the
join raises `TypeError` (a non-string summary). -/
def finalErrorMessage (l : List PyVal) : Option PyVal :=
  if l.isEmpty then some .none
  else (joinSemicolon (l.take 5)).map PyVal.str

/-- Payload of the final metadata update (src/index.py lines 544-549). -/
def finalPatchPayload (bpid : PyVal) (status : String) (total : Nat) (errMsg : PyVal) :
    List (String × PyVal) :=
  [("business_place_id", bpid),
   ("scraping_status", .str status),
   ("total_reviews_scraped", .int total),
   ("error_message", errMsg)]

/-- Payload of the best-effort business-record creation
(src/index.py lines 558-562). -/
def businessPayload (bpid : PyVal) (u : Option Int) : List (String × PyVal) :=
  [("place_id", bpid)] ++
    (match u with | some k => [("user_profile", .int k)] | Option.none => [])

/-- Truthiness of an environment-variable read (`os.getenv` /
`os.environ.get`): absent or empty is falsy. -/
def envTruthy : Option String → Bool
  | some s => s ≠ ""
  | Option.none => false

/-- External outcomes for one synchronous scraping run.  The `...Msg`
fields are the strings the Python runtime renders for the
corresponding exceptions when they occur. -/
structure ScrapeEnv where
  apify_token : Option String := Option.none
  stripMsg : String := ""
  callOutcome : Option String := Option.none
  datasetOutcome : Except String (List (Item × ItemEnv)) := .ok []
  joinCrashMsg : String := ""
  dumpsCrashMsg : String := ""
  intCrashMsg : String := ""

/-- The best-effort `failed`-status metadata write used by every fatal
branch of `handle_synchronous_scraping` (only attempted when the store
configuration was passed in). -/
def failPatch (supabase : Bool) (attemptId : String) (msg : String) : List Effect :=
  if supabase then
    [.patchMetadata attemptId
      [("scraping_status", .str "failed"), ("error_message", .str msg)]]
  else []

/-- The outer exception handler of `handle_synchronous_scraping`
(src/index.py lines 586-612): best-effort `failed` write, then a 500
`Scraping failed` response. -/
def syncCrash (attemptId : String) (supabase : Bool) (pre : List Effect)
    (ty msg : String) : Response × List Effect :=
  let emsg := ty ++ ": " ++ msg
  ({ statusCode := 500, headers := some CORS_HEADERS,
     body := .msg [("error", .str "Scraping failed"), ("details", .str emsg)] },
   pre ++ failPatch supabase attemptId emsg)

/-- The `reviewsStartDate` handling of src/index.py line 330:
`if reviews_start_date and reviews_start_date.strip():`.  A truthy
non-string raises `AttributeError` (caught by the Apify `except` at
line 335); a string is added unstripped when its trim is non-empty. -/
def stripRSD (v : PyVal) : Except Unit (Option String) :=
  if v.truthy then
    match v with
    | .str s => if s.trim ≠ "" then .ok (some s) else .ok Option.none
    | _ => .error ()
  else .ok Option.none

/-- The Apify job configuration (src/index.py lines 321-331). -/
def runInputOf (place_ids max_reviews : PyVal) (sd : Option String) :
    List (String × PyVal) :=
  [("placeIds", place_ids), ("maxReviews", max_reviews),
   ("reviewsSort", .str "newest"), ("language", .str "en"),
   ("reviewsOrigin", .str "all"), ("personalData", .bool true)] ++
  (match sd with | some d => [("reviewsStartDate", .str d)] | Option.none => [])

/-- The `processed_results` payload at the end of a run
(src/index.py lines 361-374 and the loop updates). -/
def successResults (attemptId : String) (n : Nat) (s : LoopState) : ProcessedResults :=
  { totalItems := n, successfulInserts := s.successfulInserts,
    errors := s.errors, businessInfo := s.businessInfo,
    scrapingAttemptId := attemptId }

/-- The post-loop tail of `handle_synchronous_scraping`
(src/index.py lines 536-612): the final metadata update, the
best-effort business-record creation and the 200 response, together
with the crash paths handled by the outer exception handler.  `n` is
the dataset length, `s` the end-of-loop state, `effs0` the calls
attempted so far. -/
def syncFinish (scraping_attempt_id : String) (supabase : Bool)
    (user_profile_id : Option PyVal) (env : ScrapeEnv) (n : Nat)
    (s : LoopState) (effs0 : List Effect) : Response × List Effect :=
  let st := final_status s.total_reviews_scraped s.scraping_errors
  let resp : Response :=
    { statusCode := 200, headers := some CORS_HEADERS,
      body := .results (successResults scraping_attempt_id n s) }
  if supabase then
    match finalErrorMessage s.scraping_errors with
    | Option.none =>
        -- the semicolon join raised before the final patch was sent
        syncCrash scraping_attempt_id true effs0 "TypeError" env.joinCrashMsg
    | some em =>
      if ¬ s.business_place_id.serializable then
        -- json.dumps of the final payload raised before the call
        syncCrash scraping_attempt_id true effs0 "TypeError" env.dumpsCrashMsg
      else
        let effs1 := effs0 ++
          [Effect.patchMetadata scraping_attempt_id
            (finalPatchPayload s.business_place_id st s.total_reviews_scraped em)]
        match user_profile_id with
        | Option.none =>
            (resp, effs1 ++
              [Effect.postBusiness (businessPayload s.business_place_id Option.none)])
        | some u =>
          match pyInt u with
          | Option.none =>
              syncCrash scraping_attempt_id true effs1 (pyIntErrTy u) env.intCrashMsg
          | some k =>
              (resp, effs1 ++
                [Effect.postBusiness (businessPayload s.business_place_id (some k))])
  else
    match user_profile_id with
    | Option.none => (resp, effs0)
    | some u =>
      match pyInt u with
      | Option.none =>
          syncCrash scraping_attempt_id false effs0 (pyIntErrTy u) env.intCrashMsg
      | some _ => (resp, effs0)

/-- Function `handle_synchronous_scraping` (src/index.py lines 288-612).
`supabase` stands for `supabase_url and supabase_headers` being
truthy (they are passed together); the Supabase base URL itself is a
constant prefix of every call and is not recorded in effects. -/
def handle_synchronous_scraping (scraping_attempt_id : String)
    (place_ids max_reviews reviews_start_date business_place_id : PyVal)
    (supabase : Bool) (user_profile_id : Option PyVal) (env : ScrapeEnv) :
    Response × List Effect :=
  if ¬ envTruthy env.apify_token then
    let m := "Apify token not configured in environment variables"
    ({ statusCode := 500, headers := some CORS_HEADERS,
       body := .msg [("error", .str m)] },
     failPatch supabase scraping_attempt_id m)
  else
    match stripRSD reviews_start_date with
    | .error _ =>
        let m := "Apify scraping failed: " ++ env.stripMsg
        ({ statusCode := 500, headers := some CORS_HEADERS,
           body := .msg [("error", .str "Scraping failed"), ("details", .str m)] },
         failPatch supabase scraping_attempt_id m)
    | .ok sd =>
      let run_input := runInputOf place_ids max_reviews sd
      match env.callOutcome with
      | some emsg =>
          let m := "Apify scraping failed: " ++ emsg
          ({ statusCode := 500, headers := some CORS_HEADERS,
             body := .msg [("error", .str "Scraping failed"), ("details", .str m)] },
           Effect.callActor run_input :: failPatch supabase scraping_attempt_id m)
      | Option.none =>
        match env.datasetOutcome with
        | .error emsg =>
            let m := "Failed to retrieve scraped data: " ++ emsg
            ({ statusCode := 500, headers := some CORS_HEADERS,
               body := .msg [("error", .str "Failed to retrieve scraped data"),
                             ("details", .str m)] },
             [Effect.callActor run_input, Effect.fetchDataset] ++
               failPatch supabase scraping_attempt_id m)
        | .ok items =>
          let r := runLoop scraping_attempt_id { business_place_id := business_place_id } items
          syncFinish scraping_attempt_id supabase user_profile_id env items.length r.1
            (Effect.callActor run_input :: Effect.fetchDataset :: r.2)

/-- The `body` field of an inbound event, after `json.loads`
(src/index.py lines 106-113): absent (`json.loads` of the default
empty-object string yields an empty mapping), malformed JSON (carrying
`str(e)`), or a parsed JSON object.  A JSON body that parses to a
non-object raises later and is outside the claims. -/
inductive BodyField where
  | absent : BodyField
  | malformed (err : String) : BodyField
  | parsed (fields : List (String × PyVal)) : BodyField

/-- The inbound Lambda event, restricted to the keys `lambda_handler`
reads.  Top-level keys beyond `httpMethod`, `path` and `body` are those
of the asynchronous self-invocation payload. -/
structure Event where
  httpMethod : Option String := Option.none
  path : Option String := Option.none
  body : BodyField := .absent
  isAsyncExecution : PyVal := .none
  scrapingAttemptId : Option PyVal := Option.none
  placeIds : Option PyVal := Option.none
  maxReviews : Option PyVal := Option.none
  reviewsStartDate : PyVal := .none
  businessPlaceId : Option PyVal := Option.none

/-- The payload handed to the asynchronous Lambda self-invocation
(src/index.py lines 168-175). -/
def asyncPayload (said place_ids max_reviews reviews_start_date bpid : PyVal) :
    List (String × PyVal) :=
  [("isAsyncExecution", .bool true),
   ("scrapingAttemptId", said),
   ("placeIds", place_ids),
   ("maxReviews", max_reviews),
   ("reviewsStartDate", reviews_start_date),
   ("businessPlaceId", bpid)]

/-- Outcome of the status-check store read (src/index.py lines
638-645): request failure, a 2xx with an unparsable JSON body, or the
parsed JSON data. -/
inductive StatusOutcome where
  | reqError (msg : String) : StatusOutcome
  | badJson (msg : String) : StatusOutcome
  | ok (data : PyVal) : StatusOutcome

/-- External outcomes for one `lambda_handler` invocation.  `uuid` is
the value `uuid.uuid4()` generates; `indexTy`/`indexMsg` are the
strings rendered when `place_ids[0]` raises; `statusIdxMsg` when
`data[0]` raises in the status check. -/
structure HandlerEnv where
  supabase : Bool := true
  uuid : String := "00000000-0000-0000-0000-000000000000"
  invokeOk : Bool := true
  indexTy : String := "TypeError"
  indexMsg : String := ""
  statusOutcome : StatusOutcome := .ok (.list [])
  statusIdxMsg : String := ""
  scrape : ScrapeEnv := {}

/-- A `KeyError` escaping `handle_async_scraping`
(src/index.py lines 281-286): note the response carries no headers. -/
def asyncKeyError (key : String) : Response × List Effect :=
  ({ statusCode := 500, headers := Option.none,
     body := .msg [("error", .str "Async scraping failed"),
                   ("details", .str ("\x27" ++ key ++ "\x27"))] }, [])

/-- Function `handle_async_scraping` (src/index.py lines 256-286).  The
scraping attempt id from the event is stringified by the f-string URL
interpolation downstream, hence `pyStr`. -/
def handle_async_scraping (ev : Event) (supabase : Bool) (env : ScrapeEnv) :
    Response × List Effect :=
  match ev.scrapingAttemptId with
  | Option.none => asyncKeyError "scrapingAttemptId"
  | some said =>
  match ev.placeIds with
  | Option.none => asyncKeyError "placeIds"
  | some pids =>
  match ev.maxReviews with
  | Option.none => asyncKeyError "maxReviews"
  | some mrev =>
  match ev.businessPlaceId with
  | Option.none => asyncKeyError "businessPlaceId"
  | some bpid =>
    if ¬ supabase then
      ({ statusCode := 500, headers := Option.none,
         body := .msg [("error", .str "Supabase configuration missing for async task")] },
       [])
    else
      handle_synchronous_scraping (pyStr said) pids mrev ev.reviewsStartDate bpid
        supabase Option.none env

/-- Python `"/scraping-status/" in path`. -/
def pathHasStatusCheck (p : String) : Bool :=
  2 ≤ (p.splitOn "/scraping-status/").length

/-- The GET-status-check dispatch test (src/index.py line 98). -/
def isStatusCheckReq (ev : Event) : Bool :=
  ev.httpMethod == some "GET" && pathHasStatusCheck (ev.path.getD "")

/-- Function `handle_status_check` (src/index.py lines 614-664). -/
def handle_status_check (ev : Event) (env : HandlerEnv) : Response × List Effect :=
  let attemptId := (((ev.path.getD "").splitOn "/").getLastD "")
  if ¬ env.supabase then
    ({ statusCode := 500, headers := some CORS_HEADERS,
       body := .msg [("error", .str "Supabase URL or Key not configured for status check")] },
     [])
  else
    match env.statusOutcome with
    | .reqError m =>
        ({ statusCode := 500, headers := some CORS_HEADERS,
           body := .msg [("error", .str "Failed to check status"), ("details", .str m)] },
         [.getMetadata attemptId])
    | .badJson m =>
        ({ statusCode := 500, headers := some CORS_HEADERS,
           body := .msg [("error", .str "Failed to check status"), ("details", .str m)] },
         [.getMetadata attemptId])
    | .ok data =>
        if ¬ data.truthy then
          ({ statusCode := 404, headers := some CORS_HEADERS,
             body := .msg [("error", .str "Scraping attempt not found")] },
           [.getMetadata attemptId])
        else
          match pyIndex0 data with
          | some row =>
              ({ statusCode := 200, headers := some CORS_HEADERS, body := .raw row },
               [.getMetadata attemptId])
          | Option.none =>
              ({ statusCode := 500, headers := some CORS_HEADERS,
                 body := .msg [("error", .str "Failed to check status"),
                               ("details", .str env.statusIdxMsg)] },
               [.getMetadata attemptId])

/-- The top-level exception handler of `lambda_handler`
(src/index.py lines 212-254): best-effort `failed` metadata write when
the store environment variables are set, then a 500. -/
def handlerCrash (env : HandlerEnv) (attemptId ty msg : String) :
    Response × List Effect :=
  let emsg := ty ++ ": " ++ msg
  ({ statusCode := 500, headers := some CORS_HEADERS,
     body := .msg [("error", .str "Internal server error"), ("details", .str emsg)] },
   failPatch env.supabase attemptId emsg)

/-- The body of `lambda_handler` after JSON parsing
(src/index.py lines 115-210). -/
def lambda_handler_main (ev : Event) (env : HandlerEnv)
    (body : List (String × PyVal)) : Response × List Effect :=
  let place_ids := pyGetD body "placeIds" (.list [])
  let max_reviews := pyGetD body "maxReviews" (.int 5)
  let reviews_start_date := pyGet body "reviewsStartDate"
  let scraping_metadata_id := pyGet body "scraping_metadata_id"
  let return_immediately := pyGetD body "returnImmediately" (.bool true)
  let user_profile_id := pyGet body "user_profile_id"
  if ¬ place_ids.truthy then
    ({ statusCode := 400, headers := some CORS_HEADERS,
       body := .msg [("error", .str "Place IDs are required")] }, [])
  else if ¬ user_profile_id.truthy then
    ({ statusCode := 400, headers := some CORS_HEADERS,
       body := .msg [("error", .str "user_profile_id is required")] }, [])
  else
    let said : PyVal :=
      if ¬ scraping_metadata_id.truthy then .str env.uuid else scraping_metadata_id
    match pyIndex0 place_ids with
    | Option.none =>
        -- `place_ids[0]` raised on a truthy non-indexable value; the
        -- top-level handler fires
        handlerCrash env (pyStr said) env.indexTy env.indexMsg
    | some bpid =>
      if ¬ env.supabase then
        ({ statusCode := 500, headers := some CORS_HEADERS,
           body := .msg [("error",
             .str "Supabase URL or Key not configured in environment variables")] },
         [])
      else
        if return_immediately.truthy && env.invokeOk then
          ({ statusCode := 202, headers := some CORS_HEADERS,
             body := .msg [("message", .str "Scraping initiated successfully"),
                           ("scrapingAttemptId", said),
                           ("status", .str "in_progress"),
                           ("estimatedDuration", .str "10-15 minutes")] },
           [.invokeLambda (asyncPayload said place_ids max_reviews reviews_start_date bpid)])
        else
          -- either returnImmediately was falsy, or the invoke raised and
          -- execution falls back to the synchronous path (line 200); a
          -- failed invoke attempt performs no recorded outbound call
          if ev.isAsyncExecution.truthy then
            handle_async_scraping ev true env.scrape
          else
            handle_synchronous_scraping (pyStr said) place_ids max_reviews
              reviews_start_date bpid true user_profile_id env.scrape

/-- Function `lambda_handler` (src/index.py lines 89-254): OPTIONS pre-flight,
GET status-check dispatch, JSON parsing, then the main body. -/
def lambda_handler (ev : Event) (env : HandlerEnv) : Response × List Effect :=
  if ev.httpMethod == some "OPTIONS" then
    ({ statusCode := 200, headers := some CORS_HEADERS,
       body := .msg [("message", .str "OK")] }, [])
  else if isStatusCheckReq ev then
    handle_status_check ev env
  else
    match ev.body with
    | .malformed err =>
        ({ statusCode := 400, headers := some CORS_HEADERS,
           body := .msg [("error", .str "Invalid JSON in request body"),
                         ("details", .str err)] }, [])
    | .absent => lambda_handler_main ev env []
    | .parsed fields => lambda_handler_main ev env fields

@[simp] theorem bpidUpdate_successfulInserts (s : LoopState) (item : Item) :
    (bpidUpdate s item).successfulInserts = s.successfulInserts := by
  unfold bpidUpdate; split <;> rfl

@[simp] theorem bpidUpdate_total (s : LoopState) (item : Item) :
    (bpidUpdate s item).total_reviews_scraped = s.total_reviews_scraped := by
  unfold bpidUpdate; split <;> rfl

@[simp] theorem bpidUpdate_errors (s : LoopState) (item : Item) :
    (bpidUpdate s item).errors = s.errors := by
  unfold bpidUpdate; split <;> rfl

@[simp] theorem bpidUpdate_scraping_errors (s : LoopState) (item : Item) :
    (bpidUpdate s item).scraping_errors = s.scraping_errors := by
  unfold bpidUpdate; split <;> rfl

@[simp] theorem bpidUpdate_businessInfo (s : LoopState) (item : Item) :
    (bpidUpdate s item).businessInfo = s.businessInfo := by
  unfold bpidUpdate; split <;> rfl

@[simp] theorem addError_successfulInserts (s : LoopState) (e : ProcessedError) (m : PyVal) :
    (addError s e m).successfulInserts = s.successfulInserts := rfl

@[simp] theorem addError_total (s : LoopState) (e : ProcessedError) (m : PyVal) :
    (addError s e m).total_reviews_scraped = s.total_reviews_scraped := rfl

@[simp] theorem addError_errors (s : LoopState) (e : ProcessedError) (m : PyVal) :
    (addError s e m).errors = s.errors ++ [e] := rfl

@[simp] theorem addError_scraping_errors (s : LoopState) (e : ProcessedError) (m : PyVal) :
    (addError s e m).scraping_errors = s.scraping_errors ++ [m] := rfl

@[simp] theorem addError_businessInfo (s : LoopState) (e : ProcessedError) (m : PyVal) :
    (addError s e m).businessInfo = s.businessInfo := rfl

@[simp] theorem addError_bpid (s : LoopState) (e : ProcessedError) (m : PyVal) :
    (addError s e m).business_place_id = s.business_place_id := rfl

theorem cleanValue_serializable (v : PyVal) : (cleanValue v).serializable = true := by
  cases v
  case list xs =>
    simp only [cleanValue]
    split
    · assumption
    · simp [PyVal.serializable]
  case dict kvs =>
    simp only [cleanValue]
    split
    · assumption
    · simp [PyVal.serializable]
  all_goals simp [cleanValue, PyVal.serializable]

theorem cleanValue_primitive (v : PyVal) (h : v.isPrimitive = true) : cleanValue v = v := by
  cases v <;> simp_all [cleanValue, PyVal.isPrimitive]

theorem cleanValue_nested_bad (v : PyVal) (h1 : v.isNested = true)
    (h2 : v.serializable = false) : cleanValue v = .str (pyStr v) := by
  cases v <;> simp_all [cleanValue, PyVal.isNested]

theorem cleanValue_other (v : PyVal) (h1 : v.isPrimitive = false)
    (h2 : v.isNested = false) : cleanValue v = .str (pyStr v) := by
  cases v <;> simp_all [cleanValue, PyVal.isPrimitive, PyVal.isNested]

/-- C4: for every input mapping, `clean_review_data` terminates (it is a
total function) and returns a mapping every value of which passes the
serialization probe; primitive values (including booleans) pass through
unchanged, nested structures that fail the probe are replaced by their
string representation, and any other value type is stringified.  As a
Lean function over an explicit input with no state, it is deterministic
and side-effect-free by construction. -/
theorem clean_review_data_spec (item : List (String × PyVal)) :
    ((clean_review_data item).all fun kv => kv.2.serializable) = true
    ∧ (clean_review_data item).length = item.length
    ∧ (∀ kv ∈ item, kv.2.isPrimitive = true → (kv.1, kv.2) ∈ clean_review_data item)
    ∧ (∀ kv ∈ item, kv.2.isNested = true → kv.2.serializable = false →
        (kv.1, PyVal.str (pyStr kv.2)) ∈ clean_review_data item)
    ∧ (∀ kv ∈ item, kv.2.isPrimitive = false → kv.2.isNested = false →
        (kv.1, PyVal.str (pyStr kv.2)) ∈ clean_review_data item) := by
  refine ⟨?_, ?_, ?_, ?_, ?_⟩
  · rw [List.all_eq_true]
    intro kv hkv
    simp only [clean_review_data, List.mem_map] at hkv
    obtain ⟨ab, _, rfl⟩ := hkv
    exact cleanValue_serializable ab.2
  · simp [clean_review_data]
  · intro kv hm hp
    have h : (kv.1, cleanValue kv.2) ∈ clean_review_data item :=
      List.mem_map_of_mem _ hm
    rwa [cleanValue_primitive kv.2 hp] at h
  · intro kv hm h1 h2
    have h : (kv.1, cleanValue kv.2) ∈ clean_review_data item :=
      List.mem_map_of_mem _ hm
    rwa [cleanValue_nested_bad kv.2 h1 h2] at h
  · intro kv hm h1 h2
    have h : (kv.1, cleanValue kv.2) ∈ clean_review_data item :=
      List.mem_map_of_mem _ hm
    rwa [cleanValue_other kv.2 h1 h2] at h

theorem clean_review_data_spec_witness :
    (("a", PyVal.int 1) ∈ clean_review_data [("a", PyVal.int 1), ("b", PyVal.obj "X")])
    ∧ (("b", PyVal.str (pyStr (PyVal.obj "X")))
        ∈ clean_review_data [("a", PyVal.int 1), ("b", PyVal.obj "X")]) :=
  ⟨(clean_review_data_spec _).2.2.1 ("a", PyVal.int 1) (by simp) (by rfl),
   (clean_review_data_spec _).2.2.2.2 ("b", PyVal.obj "X") (by simp) (by rfl) (by rfl)⟩

/-- An external environment for one record is benign when a successful
insert reports a truthy result and the back-annotation block does not
raise a non-request exception.  These are exactly the outcomes under
which one record contributes exactly one success or one error. -/
def envBenign (e : ItemEnv) : Bool :=
  (match e.post with | .ok r => r.truthy | _ => true) &&
  (match e.annotate with | .raised _ _ _ => false | _ => true)

theorem processItem_benign (attemptId : String) (s : LoopState) (item : Item)
    (env : ItemEnv) (h : envBenign env = true) :
    (processItem attemptId s (item, env)).1.successfulInserts
      + (processItem attemptId s (item, env)).1.errors.length
      = s.successfulInserts + s.errors.length + 1 := by
  obtain ⟨post, annotate, jm, jt⟩ := env
  simp only [envBenign, Bool.and_eq_true] at h
  simp only [processItem]
  split
  · split
    · rcases hj : pyJoinComma (pyGetD item "categories" (.list [])) with _ | cats
      · simp [hj, crashStep]; omega
      · simp [hj]; omega
    · simp; omega
  · cases post with
    | reqError m t => simp [crashStep]; omega
    | jsonError t => simp [crashStep]; omega
    | ok result =>
      have hr : result.truthy = true := h.1
      simp only [hr]
      cases annotate with
      | silent patched =>
        rcases hid : reviewIdOf result with _ | rid <;> simp [hid, hr] <;> omega
      | raised ty m tb => exact absurd h.2 (by simp)

theorem processItem_wf (attemptId : String) (s : LoopState) (ie : Item × ItemEnv)
    (h1 : s.successfulInserts = s.total_reviews_scraped)
    (h2 : s.errors.length = s.scraping_errors.length) :
    (processItem attemptId s ie).1.successfulInserts
        = (processItem attemptId s ie).1.total_reviews_scraped
    ∧ (processItem attemptId s ie).1.errors.length
        = (processItem attemptId s ie).1.scraping_errors.length := by
  obtain ⟨item, env⟩ := ie
  obtain ⟨post, annotate, jm, jt⟩ := env
  simp only [processItem]
  split
  · split
    · rcases hj : pyJoinComma (pyGetD item "categories" (.list [])) with _ | cats
      · simp [hj, crashStep, h1, h2]
      · simp [hj, h1, h2]
    · simp [h1, h2]
  · cases post with
    | reqError m t => simp [crashStep, h1, h2]
    | jsonError t => simp [crashStep, h1, h2]
    | ok result =>
      by_cases hr : result.truthy = true
      · simp only [hr]
        cases annotate with
        | silent patched =>
            rcases hid : reviewIdOf result with _ | rid <;> simp [hid, h1, h2]
        | raised ty m tb =>
            rcases hid : reviewIdOf result with _ | rid <;>
              simp [hid, crashStep, h1, h2]
      · simp only [Bool.not_eq_true] at hr
        simp [hr, h1, h2]

theorem runLoop_wf (attemptId : String) (items : List (Item × ItemEnv)) :
    ∀ s : LoopState, s.successfulInserts = s.total_reviews_scraped →
      s.errors.length = s.scraping_errors.length →
      (runLoop attemptId s items).1.successfulInserts
          = (runLoop attemptId s items).1.total_reviews_scraped
      ∧ (runLoop attemptId s items).1.errors.length
          = (runLoop attemptId s items).1.scraping_errors.length := by
  induction items with
  | nil => intro s h1 h2; exact ⟨h1, h2⟩
  | cons ie rest ih =>
      intro s h1 h2
      have hp := processItem_wf attemptId s ie h1 h2
      simpa [runLoop] using ih _ hp.1 hp.2

theorem runLoop_append_fst (attemptId : String) (xs ys : List (Item × ItemEnv)) :
    ∀ s, (runLoop attemptId s (xs ++ ys)).1
      = (runLoop attemptId (runLoop attemptId s xs).1 ys).1 := by
  induction xs with
  | nil => intro s; simp [runLoop]
  | cons ie rest ih => intro s; simp [runLoop, ih]

theorem processItem_bpid_truthy (attemptId : String) (s : LoopState) (ie : Item × ItemEnv)
    (h : s.business_place_id.truthy = true) :
    (processItem attemptId s ie).1.business_place_id = s.business_place_id := by
  obtain ⟨item, env⟩ := ie
  obtain ⟨post, annotate, jm, jt⟩ := env
  have hb : bpidUpdate s item = s := by unfold bpidUpdate; simp [h]
  simp only [processItem, hb]
  split
  · split
    · rcases hj : pyJoinComma (pyGetD item "categories" (.list [])) with _ | cats <;>
        simp [hj, crashStep]
    · simp
  · cases post with
    | reqError m t => simp [crashStep]
    | jsonError t => simp [crashStep]
    | ok result =>
      by_cases hr : result.truthy = true
      · simp only [hr]
        cases annotate with
        | silent patched =>
            rcases hid : reviewIdOf result with _ | rid <;> simp [hid]
        | raised ty m tb =>
            rcases hid : reviewIdOf result with _ | rid <;> simp [hid, crashStep]
      · simp only [Bool.not_eq_true] at hr
        simp [hr]

theorem runLoop_bpid_truthy (attemptId : String) (items : List (Item × ItemEnv)) :
    ∀ s : LoopState, s.business_place_id.truthy = true →
      (runLoop attemptId s items).1.business_place_id = s.business_place_id := by
  induction items with
  | nil => intro s _; rfl
  | cons ie rest ih =>
      intro s h
      have hp := processItem_bpid_truthy attemptId s ie h
      have ht : (processItem attemptId s ie).1.business_place_id.truthy = true := by
        rw [hp]; exact h
      simp only [runLoop]
      rw [ih _ ht, hp]

theorem runLoop_benign_sum (attemptId : String) (items : List (Item × ItemEnv)) :
    ∀ s : LoopState, (∀ ie ∈ items, envBenign ie.2 = true) →
      (runLoop attemptId s items).1.successfulInserts
        + (runLoop attemptId s items).1.errors.length
        = s.successfulInserts + s.errors.length + items.length := by
  induction items with
  | nil => intro s _; simp [runLoop]
  | cons ie rest ih =>
      intro s h
      obtain ⟨item, env⟩ := ie
      have hstep := processItem_benign attemptId s item env
        (h (item, env) (List.mem_cons_self _ _))
      have hrest := ih (processItem attemptId s (item, env)).1
        (fun x hx => h x (List.mem_cons_of_mem _ hx))
      simp only [runLoop, List.length_cons]
      omega

/-- C1 (amended): over a result set of N raw records, provided the
store reports a truthy JSON result for every successful insert and the
best-effort back-annotation never raises a non-request exception,
every raw record yields exactly one of a successful insert or a
`ProcessedError`, so `successfulInserts + errors.length = N`.  Without
these provisos the sum can fall short (a falsy insert result is
counted in neither tally, lines 469-470) or exceed N (a counted insert
followed by an annotation exception also appends an error,
lines 470, 517-534). -/
theorem successes_plus_errors_eq_total (attemptId : String) (bpid : PyVal)
    (items : List (Item × ItemEnv))
    (h : ∀ ie ∈ items, envBenign ie.2 = true) :
    (runLoop attemptId { business_place_id := bpid } items).1.successfulInserts
      + (runLoop attemptId { business_place_id := bpid } items).1.errors.length
      = items.length := by
  simpa using runLoop_benign_sum attemptId items { business_place_id := bpid } h

theorem successes_plus_errors_eq_total_witness :
    (runLoop "a" { business_place_id := PyVal.str "P" }
        [([("error", PyVal.str "no_reviews")], { post := PostOutcome.ok (PyVal.int 1) }),
         ([], { post := PostOutcome.ok (PyVal.int 1) })]).1.successfulInserts
      + (runLoop "a" { business_place_id := PyVal.str "P" }
        [([("error", PyVal.str "no_reviews")], { post := PostOutcome.ok (PyVal.int 1) }),
         ([], { post := PostOutcome.ok (PyVal.int 1) })]).1.errors.length
      = 2 :=
  successes_plus_errors_eq_total "a" (PyVal.str "P")
    [([("error", PyVal.str "no_reviews")], { post := PostOutcome.ok (PyVal.int 1) }),
     ([], { post := PostOutcome.ok (PyVal.int 1) })] (by decide)

/-- C1 is refuted as stated: a single raw record with no error tag
whose insert succeeds (2xx) but whose parsed JSON result is falsy
(here the empty list) increments no counter and appends no error, so
`successfulInserts + errors.length = 0 ≠ 1 = N`. -/
theorem successes_plus_errors_counterexample :
    ¬ ((runLoop "a" { business_place_id := PyVal.str "P" }
          [([], { post := PostOutcome.ok (PyVal.list []) })]).1.successfulInserts
        + (runLoop "a" { business_place_id := PyVal.str "P" }
          [([], { post := PostOutcome.ok (PyVal.list []) })]).1.errors.length
        = 1) := by
  decide

/-- C2 (amended): the status computed by the final-status expression
of line 537 from the end-of-loop state satisfies exactly the claimed
characterisation: `failed` iff no successful insert and a non-empty
error list, `completed_with_errors` iff at least one successful insert
and a non-empty error list, `completed` iff no errors.  This is the
status sent by the final metadata update whenever that update is
performed; when rendering the final update payload itself raises
(e.g. a non-string error description makes the join at line 548
raise), the update is skipped and the outer handler writes `failed`
instead regardless of the counts. -/
theorem final_status_characterisation (attemptId : String) (bpid : PyVal)
    (items : List (Item × ItemEnv)) :
    ∀ s : LoopState, s = (runLoop attemptId { business_place_id := bpid } items).1 →
      (final_status s.total_reviews_scraped s.scraping_errors = "failed"
          ↔ s.successfulInserts = 0 ∧ s.errors ≠ [])
      ∧ (final_status s.total_reviews_scraped s.scraping_errors = "completed_with_errors"
          ↔ 0 < s.successfulInserts ∧ s.errors ≠ [])
      ∧ (final_status s.total_reviews_scraped s.scraping_errors = "completed"
          ↔ s.errors = []) := by
  intro s hs
  have hwf := runLoop_wf attemptId items { business_place_id := bpid } rfl rfl
  rw [← hs] at hwf
  obtain ⟨h1, h2⟩ := hwf
  have herr : (s.errors = []) ↔ (s.scraping_errors = []) := by
    rw [← List.length_eq_zero, h2, List.length_eq_zero]
  unfold final_status
  by_cases he : s.scraping_errors.isEmpty
  · have he' : s.scraping_errors = [] := List.isEmpty_iff.mp he
    have he2 : s.errors = [] := herr.mpr he'
    simp [he, he2]
  · have he' : ¬ s.scraping_errors = [] := by simpa [List.isEmpty_iff] using he
    have he2 : s.errors ≠ [] := fun hh => he' (herr.mp hh)
    by_cases ht : s.total_reviews_scraped = 0
    · have hs0 : s.successfulInserts = 0 := by rw [h1]; exact ht
      simp [he, ht, hs0, he2]
    · have hsn : s.successfulInserts ≠ 0 := by rw [h1]; exact ht
      simp [he, ht, he2, hsn, Nat.pos_of_ne_zero hsn]

theorem final_status_characterisation_witness :
    (final_status
        (runLoop "a" { business_place_id := PyVal.str "P" } []).1.total_reviews_scraped
        (runLoop "a" { business_place_id := PyVal.str "P" } []).1.scraping_errors = "failed"
      ↔ (runLoop "a" { business_place_id := PyVal.str "P" } []).1.successfulInserts = 0
        ∧ (runLoop "a" { business_place_id := PyVal.str "P" } []).1.errors ≠ [])
    ∧ (final_status
        (runLoop "a" { business_place_id := PyVal.str "P" } []).1.total_reviews_scraped
        (runLoop "a" { business_place_id := PyVal.str "P" } []).1.scraping_errors
          = "completed_with_errors"
      ↔ 0 < (runLoop "a" { business_place_id := PyVal.str "P" } []).1.successfulInserts
        ∧ (runLoop "a" { business_place_id := PyVal.str "P" } []).1.errors ≠ [])
    ∧ (final_status
        (runLoop "a" { business_place_id := PyVal.str "P" } []).1.total_reviews_scraped
        (runLoop "a" { business_place_id := PyVal.str "P" } []).1.scraping_errors = "completed"
      ↔ (runLoop "a" { business_place_id := PyVal.str "P" } []).1.errors = []) :=
  final_status_characterisation "a" (PyVal.str "P") []
    (runLoop "a" { business_place_id := PyVal.str "P" } []).1 rfl

/-- C2 is refuted as a statement about the status value that ends up
written to the metadata: in this run one record inserts successfully
and one error-tagged record carries a non-string `errorDescription`,
so the semicolon join of line 548 raises before the final update is
sent, and the only metadata write of the whole run carries status
`failed` even though `successfulInserts = 1 > 0`. -/
theorem final_status_written_counterexample :
    ((handle_synchronous_scraping "a" (PyVal.list [PyVal.str "P1"]) (PyVal.int 5)
        PyVal.none (PyVal.str "P1") true (some (PyVal.int 7))
        { apify_token := some "t",
          datasetOutcome := Except.ok
            [([], { post := PostOutcome.ok (PyVal.int 1) }),
             ([("error", PyVal.str "boom"), ("errorDescription", PyVal.int 3)],
              { post := PostOutcome.ok (PyVal.int 1) })] }).2
      = [Effect.callActor
           [("placeIds", PyVal.list [PyVal.str "P1"]), ("maxReviews", PyVal.int 5),
            ("reviewsSort", PyVal.str "newest"), ("language", PyVal.str "en"),
            ("reviewsOrigin", PyVal.str "all"), ("personalData", PyVal.bool true)],
         Effect.fetchDataset,
         Effect.postReview [("review_data", PyVal.dict [])],
         Effect.patchMetadata "a"
           [("scraping_status", PyVal.str "failed"),
            ("error_message", PyVal.str "TypeError: ")]])
    ∧ (runLoop "a" { business_place_id := PyVal.str "P1" }
        [([], { post := PostOutcome.ok (PyVal.int 1) }),
         ([("error", PyVal.str "boom"), ("errorDescription", PyVal.int 3)],
          { post := PostOutcome.ok (PyVal.int 1) })]).1.successfulInserts = 1 := by
  constructor <;> rfl

/-- C3: a persistence failure (a request exception on the insert) or
an unexpected item-scoped exception (an unparsable 2xx store response)
on record k is converted into exactly one appended `ProcessedError`,
increments no success counter, and the loop then processes the
remaining records k+1..N from the resulting state: a single bad record
never aborts the batch. -/
theorem bad_record_never_aborts (attemptId : String) (s0 : LoopState)
    (pre post : List (Item × ItemEnv)) (item : Item) (env : ItemEnv)
    (htag : (pyGet item "error").truthy = false)
    (hfail : (∃ m t, env.post = PostOutcome.reqError m t)
           ∨ (∃ t, env.post = PostOutcome.jsonError t)) :
    (runLoop attemptId s0 (pre ++ (item, env) :: post)).1
      = (runLoop attemptId
          (processItem attemptId (runLoop attemptId s0 pre).1 (item, env)).1 post).1
    ∧ ∃ err : ProcessedError,
        (processItem attemptId (runLoop attemptId s0 pre).1 (item, env)).1.errors
          = (runLoop attemptId s0 pre).1.errors ++ [err]
        ∧ (processItem attemptId (runLoop attemptId s0 pre).1 (item, env)).1.successfulInserts
          = (runLoop attemptId s0 pre).1.successfulInserts := by
  constructor
  · rw [runLoop_append_fst]
    simp [runLoop]
  · rcases hfail with ⟨m, t, hp⟩ | ⟨t, hp⟩
    · exact ⟨{ type := .str "database_error",
               description := .str ("Database error: " ++ m ++ respTextSuffix t),
               review_id := pyGet item "reviewId" },
             by simp [processItem, htag, hp],
             by simp [processItem, htag, hp]⟩
    · exact ⟨crashError item "Exception"
               ("Invalid JSON response from database: " ++ t.take 500) "",
             by simp [processItem, htag, hp, crashStep],
             by simp [processItem, htag, hp, crashStep]⟩

theorem bad_record_never_aborts_witness :
    ((runLoop "a" { business_place_id := PyVal.str "P" }
        ([] ++ (([], ({ post := PostOutcome.reqError "boom" Option.none } : ItemEnv)) :: []))).1
      = (runLoop "a"
          (processItem "a" (runLoop "a" { business_place_id := PyVal.str "P" } []).1
            ([], ({ post := PostOutcome.reqError "boom" Option.none } : ItemEnv))).1 []).1)
    ∧ ∃ err : ProcessedError,
        (processItem "a" (runLoop "a" { business_place_id := PyVal.str "P" } []).1
            ([], ({ post := PostOutcome.reqError "boom" Option.none } : ItemEnv))).1.errors
          = (runLoop "a" { business_place_id := PyVal.str "P" } []).1.errors ++ [err]
        ∧ (processItem "a" (runLoop "a" { business_place_id := PyVal.str "P" } []).1
            ([], ({ post := PostOutcome.reqError "boom" Option.none } : ItemEnv))).1.successfulInserts
          = (runLoop "a" { business_place_id := PyVal.str "P" } []).1.successfulInserts :=
  bad_record_never_aborts "a" { business_place_id := PyVal.str "P" } [] []
    [] { post := PostOutcome.reqError "boom" Option.none }
    (by rfl) (Or.inl ⟨"boom", Option.none, rfl⟩)

theorem pyEqStr_truthy (v : PyVal) (t : String) (ht : t ≠ "")
    (h : pyEqStr v t = true) : v.truthy = true := by
  cases v <;> simp_all [pyEqStr, PyVal.truthy]

/-- C5 (amended): a raw record carrying the truthy error tag
`no_reviews` whose `categories` field joins without raising (it is
absent, a string, a mapping, or a list of strings) yields both a
`ProcessedError` (with the embedded four-field business snapshot) and
the populated `ProcessedBusinessInfo` extracted from that same record;
a record with any other truthy error tag yields only a
`ProcessedError`, leaves the business info unchanged and counts no
success.  When the `categories` field of a `no_reviews` record is not
joinable, the `",".join` at line 423 raises instead: the record yields
a single `processing_error` and no business info (see the
counterexample). -/
theorem error_tagged_record_outcomes (attemptId : String) (s : LoopState)
    (item : Item) (env : ItemEnv) (cats : String) :
    (pyEqStr (pyGet item "error") "no_reviews" = true →
      pyJoinComma (pyGetD item "categories" (PyVal.list [])) = some cats →
      (processItem attemptId s (item, env)).1.businessInfo
          = some (businessInfoOf item cats)
      ∧ (processItem attemptId s (item, env)).1.errors
          = s.errors ++
            [{ type := pyGet item "error",
               description := pyGetD item "errorDescription" (pyGet item "error"),
               place_id := pyGet item "placeId",
               business_info := some (errBusinessDict item) }])
    ∧ ((pyGet item "error").truthy = true →
       pyEqStr (pyGet item "error") "no_reviews" = false →
      (processItem attemptId s (item, env)).1.businessInfo = s.businessInfo
      ∧ (processItem attemptId s (item, env)).1.errors
          = s.errors ++
            [{ type := pyGet item "error",
               description := pyGetD item "errorDescription" (pyGet item "error"),
               place_id := pyGet item "placeId",
               business_info := Option.none }]
      ∧ (processItem attemptId s (item, env)).1.successfulInserts
          = s.successfulInserts) := by
  constructor
  · intro h1 h2
    have htr : (pyGet item "error").truthy = true :=
      pyEqStr_truthy _ "no_reviews" (by decide) h1
    constructor <;> simp [processItem, htr, h1, h2]
  · intro h1 h2
    refine ⟨?_, ?_, ?_⟩ <;> simp [processItem, h1, h2]

theorem error_tagged_record_outcomes_witness :
    (processItem "a" { business_place_id := PyVal.str "P" }
        ([("error", PyVal.str "no_reviews")], ({} : ItemEnv))).1.businessInfo
      = some (businessInfoOf [("error", PyVal.str "no_reviews")] "") :=
  (((error_tagged_record_outcomes "a" { business_place_id := PyVal.str "P" }
      [("error", PyVal.str "no_reviews")] {} "").1 (by rfl) (by rfl)).1)

/-- C5 is refuted as stated: this record carries the error tag
`no_reviews`, yet it yields no populated business info — its
`categories` field is an integer, so the `",".join` at line 423 raises
`TypeError` before `processed_results["businessInfo"]` is assigned,
and the record is instead converted into a single `processing_error`. -/
theorem no_reviews_counterexample :
    (processItem "a" { business_place_id := PyVal.str "P" }
        ([("error", PyVal.str "no_reviews"), ("categories", PyVal.int 1)],
         ({} : ItemEnv))).1.businessInfo = Option.none
    ∧ (processItem "a" { business_place_id := PyVal.str "P" }
        ([("error", PyVal.str "no_reviews"), ("categories", PyVal.int 1)],
         ({} : ItemEnv))).1.errors.map ProcessedError.type
      = [PyVal.str "processing_error"] := by
  constructor <;> rfl

/-- C7: when the job-engine credential (Apify token) is absent or
empty and the store configuration is present, the synchronous run
performs exactly one outbound call — the `failed`-status metadata
write with the credential message — submits no job, and returns a 500
error result; there is no retry. -/
theorem missing_job_credential (attemptId : String)
    (pids mrev rsd bpid : PyVal) (u : Option PyVal) (env : ScrapeEnv)
    (h : envTruthy env.apify_token = false) :
    handle_synchronous_scraping attemptId pids mrev rsd bpid true u env
      = ({ statusCode := 500, headers := some CORS_HEADERS,
           body := .msg [("error",
             PyVal.str "Apify token not configured in environment variables")] },
         [Effect.patchMetadata attemptId
            [("scraping_status", PyVal.str "failed"),
             ("error_message",
              PyVal.str "Apify token not configured in environment variables")]]) := by
  simp [handle_synchronous_scraping, h, failPatch]

theorem missing_job_credential_witness :
    handle_synchronous_scraping "a" (PyVal.list [PyVal.str "P1"]) (PyVal.int 5)
        PyVal.none (PyVal.str "P1") true (some (PyVal.int 7)) {}
      = ({ statusCode := 500, headers := some CORS_HEADERS,
           body := .msg [("error",
             PyVal.str "Apify token not configured in environment variables")] },
         [Effect.patchMetadata "a"
            [("scraping_status", PyVal.str "failed"),
             ("error_message",
              PyVal.str "Apify token not configured in environment variables")]]) :=
  missing_job_credential "a" (PyVal.list [PyVal.str "P1"]) (PyVal.int 5)
    PyVal.none (PyVal.str "P1") (some (PyVal.int 7)) {} (by rfl)

/-- The fields visible to validation, per body shape: an absent body
parses to the empty mapping. -/
def bodyFieldsOf : BodyField → Option (List (String × PyVal))
  | .absent => some []
  | .malformed _ => Option.none
  | .parsed fields => some fields

theorem lambda_handler_main_validation (ev : Event) (env : HandlerEnv)
    (fields : List (String × PyVal))
    (hmiss : (pyGetD fields "placeIds" (PyVal.list [])).truthy = false
           ∨ (pyGet fields "user_profile_id").truthy = false) :
    (lambda_handler_main ev env fields).1.statusCode = 400
    ∧ (lambda_handler_main ev env fields).2 = [] := by
  rcases hmiss with h | h
  · constructor <;> simp [lambda_handler_main, h]
  · by_cases hp : (pyGetD fields "placeIds" (PyVal.list [])).truthy = true
    · constructor <;> simp [lambda_handler_main, hp, h]
    · constructor <;> simp [lambda_handler_main, hp]

/-- C6: a non-OPTIONS, non-status-check request whose parsed body is
missing `placeIds` (or carries an empty/falsy one) or missing
`user_profile_id` (or carries a falsy one) is answered with a 400
validation failure, and the handler attempts no outbound call at all
(the effect trace is empty), hence mutates no state. -/
theorem validation_failure_no_calls (ev : Event) (env : HandlerEnv)
    (fields : List (String × PyVal))
    (hopt : (ev.httpMethod == some "OPTIONS") = false)
    (hstat : isStatusCheckReq ev = false)
    (hbody : bodyFieldsOf ev.body = some fields)
    (hmiss : (pyGetD fields "placeIds" (PyVal.list [])).truthy = false
           ∨ (pyGet fields "user_profile_id").truthy = false) :
    (lambda_handler ev env).1.statusCode = 400 ∧ (lambda_handler ev env).2 = [] := by
  have hmain := lambda_handler_main_validation ev env fields hmiss
  cases hb : ev.body with
  | absent =>
      rw [hb] at hbody
      simp only [bodyFieldsOf, Option.some.injEq] at hbody
      subst hbody
      simpa [lambda_handler, hopt, hstat, hb] using hmain
  | malformed e =>
      rw [hb] at hbody
      simp [bodyFieldsOf] at hbody
  | parsed fs =>
      rw [hb] at hbody
      simp only [bodyFieldsOf, Option.some.injEq] at hbody
      subst hbody
      simpa [lambda_handler, hopt, hstat, hb] using hmain

theorem validation_failure_no_calls_witness :
    (lambda_handler { httpMethod := some "POST", body := .parsed [] } {}).1.statusCode = 400
    ∧ (lambda_handler { httpMethod := some "POST", body := .parsed [] } {}).2 = [] :=
  validation_failure_no_calls { httpMethod := some "POST", body := .parsed [] } {}
    [] (by rfl) (by rfl) (by rfl) (Or.inl (by rfl))

theorem handle_status_check_cors (ev : Event) (env : HandlerEnv) :
    (handle_status_check ev env).1.headers = some CORS_HEADERS := by
  unfold handle_status_check
  repeat' split
  all_goals rfl

theorem syncFinish_cors (attemptId : String) (supabase : Bool)
    (u : Option PyVal) (env : ScrapeEnv) (n : Nat) (s : LoopState)
    (effs0 : List Effect) :
    (syncFinish attemptId supabase u env n s effs0).1.headers = some CORS_HEADERS := by
  unfold syncFinish syncCrash
  repeat' split
  all_goals rfl

theorem handle_synchronous_scraping_cors (attemptId : String)
    (pids mrev rsd bpid : PyVal) (supabase : Bool) (u : Option PyVal)
    (env : ScrapeEnv) :
    (handle_synchronous_scraping attemptId pids mrev rsd bpid supabase u env).1.headers
      = some CORS_HEADERS := by
  unfold handle_synchronous_scraping
  repeat' split
  all_goals first
    | rfl
    | exact syncFinish_cors _ _ _ _ _ _ _

theorem lambda_handler_main_cors (ev : Event) (env : HandlerEnv)
    (fields : List (String × PyVal))
    (h : ev.isAsyncExecution.truthy = false) :
    (lambda_handler_main ev env fields).1.headers = some CORS_HEADERS := by
  unfold lambda_handler_main handlerCrash
  by_cases h1 : (pyGetD fields "placeIds" (PyVal.list [])).truthy = true
  · by_cases h2 : (pyGet fields "user_profile_id").truthy = true
    · simp only [h1, h2]
      rcases hidx : pyIndex0 (pyGetD fields "placeIds" (PyVal.list [])) with _ | bpid
      · simp [hidx]
      · simp only [hidx]
        by_cases h3 : env.supabase = true
        · by_cases h4 : ((pyGetD fields "returnImmediately" (PyVal.bool true)).truthy
              && env.invokeOk) = true
          · simp [h3, h4]
          · simp [h3, h4, h, handle_synchronous_scraping_cors]
        · simp [h3]
    · simp [h1, h2]
  · simp [h1]

/-- C8 (amended): for every request that is not an asynchronous
self-invocation (the `isAsyncExecution` flag is falsy), every response
the handler returns — success, accepted, validation, not-found, and
every error response — carries the fixed CORS header set, which
includes `Content-Type: application/json`; and an OPTIONS pre-flight
request returns 200 immediately with no outbound call.  The failure
responses built inside `handle_async_scraping` (lines 270-273 and
283-286) are the exception refuting the unrestricted claim: they carry
no headers at all (see the counterexample). -/
theorem responses_carry_cors (ev : Event) (env : HandlerEnv) :
    (ev.isAsyncExecution.truthy = false →
      (lambda_handler ev env).1.headers = some CORS_HEADERS)
    ∧ (ev.httpMethod = some "OPTIONS" →
      lambda_handler ev env
        = ({ statusCode := 200, headers := some CORS_HEADERS,
             body := .msg [("message", PyVal.str "OK")] }, [])) := by
  constructor
  · intro h
    unfold lambda_handler
    split
    · rfl
    · split
      · exact handle_status_check_cors ev env
      · split
        · rfl
        · exact lambda_handler_main_cors ev env [] h
        · exact lambda_handler_main_cors ev env _ h
  · intro h
    simp [lambda_handler, h]

theorem responses_carry_cors_witness :
    (lambda_handler { httpMethod := some "POST", body := .parsed [] } {}).1.headers
      = some CORS_HEADERS :=
  (responses_carry_cors { httpMethod := some "POST", body := .parsed [] } {}).1 (by rfl)

/-- C8 is refuted as stated: a POST whose body is valid but which
carries a truthy `isAsyncExecution` flag and no top-level
`scrapingAttemptId` reaches `handle_async_scraping`, whose exception
response (lines 283-286) is built without a `headers` key, so this
response carries neither the CORS header set nor a Content-Type. -/
theorem cors_counterexample :
    (lambda_handler
      { httpMethod := some "POST",
        body := .parsed [("placeIds", PyVal.list [PyVal.str "P1"]),
                         ("user_profile_id", PyVal.int 7),
                         ("returnImmediately", PyVal.bool false)],
        isAsyncExecution := PyVal.bool true }
      {}).1.headers = Option.none := by
  rfl

/-- C9 (amended): for a valid request with a truthy
`returnImmediately`, the handler hands execution off to an
asynchronous self-invocation carrying the input payload fields
`scrapingAttemptId`, `placeIds`, `maxReviews`, `reviewsStartDate` and
`businessPlaceId` — but not `user_profile_id`, which is dropped from
the hand-off (see the counterexample to the claimed "full input
payload") — and returns immediately with status 202 and the attempt
identifier, performing no other outbound call; if the hand-off raises,
it falls back to running the synchronous path in the current call. -/
theorem deferred_handoff (ev : Event) (env : HandlerEnv)
    (fields : List (String × PyVal)) (bpid said : PyVal)
    (hopt : (ev.httpMethod == some "OPTIONS") = false)
    (hstat : isStatusCheckReq ev = false)
    (hbody : ev.body = BodyField.parsed fields)
    (hplace : (pyGetD fields "placeIds" (PyVal.list [])).truthy = true)
    (huser : (pyGet fields "user_profile_id").truthy = true)
    (hidx : pyIndex0 (pyGetD fields "placeIds" (PyVal.list [])) = some bpid)
    (hsup : env.supabase = true)
    (hret : (pyGetD fields "returnImmediately" (PyVal.bool true)).truthy = true)
    (hasync : ev.isAsyncExecution.truthy = false)
    (hsaid : said = (if ¬ (pyGet fields "scraping_metadata_id").truthy
                     then PyVal.str env.uuid else pyGet fields "scraping_metadata_id")) :
    (env.invokeOk = true →
      lambda_handler ev env
        = ({ statusCode := 202, headers := some CORS_HEADERS,
             body := .msg [("message", PyVal.str "Scraping initiated successfully"),
                           ("scrapingAttemptId", said),
                           ("status", PyVal.str "in_progress"),
                           ("estimatedDuration", PyVal.str "10-15 minutes")] },
           [Effect.invokeLambda (asyncPayload said
              (pyGetD fields "placeIds" (PyVal.list []))
              (pyGetD fields "maxReviews" (PyVal.int 5))
              (pyGet fields "reviewsStartDate") bpid)]))
    ∧ (env.invokeOk = false →
      lambda_handler ev env
        = handle_synchronous_scraping (pyStr said)
            (pyGetD fields "placeIds" (PyVal.list []))
            (pyGetD fields "maxReviews" (PyVal.int 5))
            (pyGet fields "reviewsStartDate") bpid true
            (some (pyGet fields "user_profile_id")) env.scrape) := by
  constructor <;> intro hi <;>
    simp [lambda_handler, lambda_handler_main, hopt, hstat, hbody, hplace, huser,
          hidx, hsup, hret, hasync, hsaid, hi]

theorem deferred_handoff_witness :
    lambda_handler
        { httpMethod := some "POST",
          body := .parsed [("placeIds", PyVal.list [PyVal.str "P1"]),
                           ("user_profile_id", PyVal.int 7)] }
        { uuid := "u" }
      = ({ statusCode := 202, headers := some CORS_HEADERS,
           body := .msg [("message", PyVal.str "Scraping initiated successfully"),
                         ("scrapingAttemptId", PyVal.str "u"),
                         ("status", PyVal.str "in_progress"),
                         ("estimatedDuration", PyVal.str "10-15 minutes")] },
         [Effect.invokeLambda (asyncPayload (PyVal.str "u")
            (PyVal.list [PyVal.str "P1"]) (PyVal.int 5) PyVal.none (PyVal.str "P1"))]) :=
  (deferred_handoff
      { httpMethod := some "POST",
        body := .parsed [("placeIds", PyVal.list [PyVal.str "P1"]),
                         ("user_profile_id", PyVal.int 7)] }
      { uuid := "u" }
      [("placeIds", PyVal.list [PyVal.str "P1"]), ("user_profile_id", PyVal.int 7)]
      (PyVal.str "P1") (PyVal.str "u")
      (by rfl) (by rfl) (by rfl) (by rfl) (by rfl) (by rfl) (by rfl) (by rfl)
      (by rfl) (by rfl)).1 (by rfl)

/-- C9 is refuted as to "carrying the full input payload": for this
valid deferred request whose body carries `user_profile_id`, the
hand-off payload (src/index.py lines 168-175) contains exactly the six
keys `isAsyncExecution`, `scrapingAttemptId`, `placeIds`,
`maxReviews`, `reviewsStartDate`, `businessPlaceId` and has no
`user_profile_id` entry. -/
theorem deferred_payload_counterexample :
    ((lambda_handler
        { httpMethod := some "POST",
          body := .parsed [("placeIds", PyVal.list [PyVal.str "P1"]),
                           ("user_profile_id", PyVal.int 7)] }
        { uuid := "u" }).2
      = [Effect.invokeLambda
           [("isAsyncExecution", PyVal.bool true),
            ("scrapingAttemptId", PyVal.str "u"),
            ("placeIds", PyVal.list [PyVal.str "P1"]),
            ("maxReviews", PyVal.int 5),
            ("reviewsStartDate", PyVal.none),
            ("businessPlaceId", PyVal.str "P1")]])
    ∧ dictFind
        [("isAsyncExecution", PyVal.bool true),
         ("scrapingAttemptId", PyVal.str "u"),
         ("placeIds", PyVal.list [PyVal.str "P1"]),
         ("maxReviews", PyVal.int 5),
         ("reviewsStartDate", PyVal.none),
         ("businessPlaceId", PyVal.str "P1")] "user_profile_id" = Option.none := by
  constructor <;> rfl

/-- The value added to the business payload for `user_profile_id`:
`some Option.none` when no profile id was passed, `some (some k)` when
`int(...)` succeeds, `Option.none` when the conversion raises. -/
def userIntOf : Option PyVal → Option (Option Int)
  | Option.none => some Option.none
  | some v => (pyInt v).map some

theorem handle_sync_success_run (attemptId : String) (pids mrev rsd bpid : PyVal)
    (u : Option PyVal) (env : ScrapeEnv) (items : List (Item × ItemEnv))
    (sd : Option String) (em : PyVal) (uk : Option Int)
    (htok : envTruthy env.apify_token = true)
    (hstrip : stripRSD rsd = Except.ok sd)
    (hcall : env.callOutcome = Option.none)
    (hdata : env.datasetOutcome = Except.ok items)
    (hjoin : finalErrorMessage
        (runLoop attemptId { business_place_id := bpid } items).1.scraping_errors
      = some em)
    (hser : (runLoop attemptId
        { business_place_id := bpid } items).1.business_place_id.serializable = true)
    (huk : userIntOf u = some uk) :
    handle_synchronous_scraping attemptId pids mrev rsd bpid true u env
      = ({ statusCode := 200, headers := some CORS_HEADERS,
           body := .results (successResults attemptId items.length
             (runLoop attemptId { business_place_id := bpid } items).1) },
         Effect.callActor (runInputOf pids mrev sd) :: Effect.fetchDataset ::
           ((runLoop attemptId { business_place_id := bpid } items).2
             ++ [Effect.patchMetadata attemptId
                   (finalPatchPayload
                     (runLoop attemptId { business_place_id := bpid } items).1.business_place_id
                     (final_status
                       (runLoop attemptId
                         { business_place_id := bpid } items).1.total_reviews_scraped
                       (runLoop attemptId
                         { business_place_id := bpid } items).1.scraping_errors)
                     (runLoop attemptId
                       { business_place_id := bpid } items).1.total_reviews_scraped
                     em),
                 Effect.postBusiness (businessPayload
                   (runLoop attemptId
                     { business_place_id := bpid } items).1.business_place_id uk)])) := by
  rcases u with _ | v
  · simp only [userIntOf, Option.some.injEq] at huk
    subst huk
    simp [handle_synchronous_scraping, syncFinish, htok, hstrip, hcall, hdata, hjoin, hser]
  · simp only [userIntOf] at huk
    rcases hk : pyInt v with _ | k
    · rw [hk] at huk; simp at huk
    · rw [hk] at huk
      simp at huk
      subst huk
      simp [handle_synchronous_scraping, syncFinish, htok, hstrip, hcall, hdata,
            hjoin, hser, hk]

/-- C10: when the first element of `placeIds` is a non-empty string
`p` — `lambda_handler` line 141 seeds `business_place_id` with
`place_ids[0]` — the per-item fallback of lines 403-404 never fires
(the end-of-loop business place id is still `p`, whatever the
records), and on a run that reaches the final update and the
best-effort business creation, both the final metadata payload and
the business payload are keyed by `p`. -/
theorem business_place_id_first_element (attemptId : String) (p : String)
    (pids mrev rsd : PyVal) (u : Option PyVal) (env : ScrapeEnv)
    (items : List (Item × ItemEnv)) (sd : Option String) (em : PyVal) (uk : Option Int)
    (hp : p ≠ "")
    (htok : envTruthy env.apify_token = true)
    (hstrip : stripRSD rsd = Except.ok sd)
    (hcall : env.callOutcome = Option.none)
    (hdata : env.datasetOutcome = Except.ok items)
    (hjoin : finalErrorMessage
        (runLoop attemptId { business_place_id := PyVal.str p } items).1.scraping_errors
      = some em)
    (huk : userIntOf u = some uk) :
    (runLoop attemptId { business_place_id := PyVal.str p } items).1.business_place_id
      = PyVal.str p
    ∧ Effect.patchMetadata attemptId
        (finalPatchPayload (PyVal.str p)
          (final_status
            (runLoop attemptId
              { business_place_id := PyVal.str p } items).1.total_reviews_scraped
            (runLoop attemptId
              { business_place_id := PyVal.str p } items).1.scraping_errors)
          (runLoop attemptId
            { business_place_id := PyVal.str p } items).1.total_reviews_scraped
          em)
        ∈ (handle_synchronous_scraping attemptId pids mrev rsd (PyVal.str p) true u env).2
    ∧ Effect.postBusiness (businessPayload (PyVal.str p) uk)
        ∈ (handle_synchronous_scraping attemptId pids mrev rsd (PyVal.str p) true u env).2 := by
  have htr : (PyVal.str p).truthy = true := by simp [PyVal.truthy, hp]
  have hbp := runLoop_bpid_truthy attemptId items { business_place_id := PyVal.str p } htr
  have hser : (runLoop attemptId
      { business_place_id := PyVal.str p } items).1.business_place_id.serializable = true := by
    rw [hbp]; simp [PyVal.serializable]
  have hrun := handle_sync_success_run attemptId pids mrev rsd (PyVal.str p) u env items
    sd em uk htok hstrip hcall hdata hjoin hser huk
  refine ⟨hbp, ?_, ?_⟩ <;> rw [hrun] <;> simp [hbp]

theorem business_place_id_first_element_witness :
    ((runLoop "a" { business_place_id := PyVal.str "P1" } []).1.business_place_id
      = PyVal.str "P1")
    ∧ Effect.patchMetadata "a"
        (finalPatchPayload (PyVal.str "P1")
          (final_status
            (runLoop "a" { business_place_id := PyVal.str "P1" } []).1.total_reviews_scraped
            (runLoop "a" { business_place_id := PyVal.str "P1" } []).1.scraping_errors)
          (runLoop "a" { business_place_id := PyVal.str "P1" } []).1.total_reviews_scraped
          PyVal.none)
        ∈ (handle_synchronous_scraping "a" (PyVal.list [PyVal.str "P1"]) (PyVal.int 5)
            PyVal.none (PyVal.str "P1") true Option.none { apify_token := some "t" }).2
    ∧ Effect.postBusiness (businessPayload (PyVal.str "P1") Option.none)
        ∈ (handle_synchronous_scraping "a" (PyVal.list [PyVal.str "P1"]) (PyVal.int 5)
            PyVal.none (PyVal.str "P1") true Option.none { apify_token := some "t" }).2 :=
  business_place_id_first_element "a" "P1" (PyVal.list [PyVal.str "P1"]) (PyVal.int 5)
    PyVal.none Option.none { apify_token := some "t" } [] Option.none PyVal.none Option.none
    (by decide) (by rfl) (by rfl) (by rfl) (by rfl) (by rfl) (by rfl)
